import Mathlib

/-!
Shallow embedding of `lighthouse-core/audits/metrics/largest-contentful-paint.js`.

The file under verification defines a single audit class with three static
members: `meta` (declarative metadata), `defaultOptions` (default scoring
calibration) and `audit` (the run operation).  Collaborators that live
outside this file — the metric-computation engine (`ComputedLCP.request`),
the i18n message formatter (`str_`), the base-class scoring helper
(`Audit.computeLogNormalScore`) and the orchestrator that merges
`defaultOptions` into `context.options` — are represented either as
function parameters of the embedding or as definitions modelled from the
specification, each marked as such in its doc comment.

Timings and scores are modelled as real numbers; JS promise rejection /
thrown exceptions are modelled with `Except`.
-/

open Real MeasureTheory intervalIntegral Set

/-- Error kinds named by the specification: a `ComputationError` raised by the
external metric engine (carried with its message, so that propagation
"unchanged" is expressible), and `InvalidInput` raised by the scoring curve
on a negative timing. -/
inductive AuditError where
  | computationError (msg : String)
  | invalidInput
deriving DecidableEq, Repr

/-- The artifacts bundle: opaque maps from pass name to trace data and to
devtools-log data (`artifacts.traces`, `artifacts.devtoolsLogs`).  The trace
and log payloads are opaque to this audit, hence type parameters. -/
structure Artifacts (T D : Type) where
  traces : String → T
  devtoolsLogs : String → D

/-- Per-run scoring calibration as the audit reads it
(`context.options.scorePODR`, `context.options.scoreMedian`). -/
structure ScoreOptions where
  scorePODR : ℝ
  scoreMedian : ℝ

/-- The audit context: `settings` (opaque, passed through to the metric
engine) and the resolved `options`. -/
structure AuditContext (S : Type) where
  settings : S
  options : ScoreOptions

/-- The `metricComputationData` record the audit builds:
`{trace, devtoolsLog, settings: context.settings}`. -/
structure MetricComputationData (T D S : Type) where
  trace : T
  devtoolsLog : D
  settings : S
deriving DecidableEq

/-- The metric engine's result: `{timing}` in milliseconds. -/
structure MetricResult where
  timing : ℝ

/-- The audit's product: `{score, numericValue, displayValue}`. -/
structure AuditProduct where
  score : ℝ
  numericValue : ℝ
  displayValue : String

/-- Scoring display modes from the base class (`Audit.SCORING_MODES`); the
audit under verification uses `NUMERIC`. -/
inductive ScoringMode where
  | numeric
  | binary
deriving DecidableEq, Repr

/-- Audit metadata record (`LH.Audit.Meta`): identifier, localized title and
description, display mode and required artifact names. -/
structure AuditMeta where
  id : String
  title : String
  description : String
  scoreDisplayMode : ScoringMode
  requiredArtifacts : List String

/-- Modelled from the spec: `Audit.DEFAULT_PASS`, the fixed, well-known pass
identifier shared by all timing-metric audits (the base class defining it is
an external collaborator). -/
def DEFAULT_PASS : String := "defaultPass"

/-- Modelled from the spec: the pinned log-normal shape derivation of the
external scoring-curve collaborator (spec section 9 treats the exact
parameterization as a pinned external specification):
`shape = sqrt(1 - 3*logRatio - sqrt((logRatio - 3)*(logRatio - 3) - 8)) / 2`
with `logRatio = log(podr / median)`. -/
noncomputable def lognormalShape (podr median : ℝ) : ℝ :=
  Real.sqrt (1 - 3 * Real.log (podr / median) -
    Real.sqrt ((Real.log (podr / median) - 3) * (Real.log (podr / median) - 3) - 8)) / 2

/-- The Gauss error function, `erf x = (2 / sqrt pi) * int_0^x exp (-t^2) dt`,
used by the complementary log-normal percentile. -/
noncomputable def erf (x : ℝ) : ℝ :=
  (2 / Real.sqrt π) * ∫ t in (0 : ℝ)..x, Real.exp (-t ^ 2)

/-- Modelled from the spec: the pure value of the external scoring curve
(complementary percentile of the log-normal distribution with location
`log median` and the pinned shape), `(1 - erf((log x - log median) /
(sqrt 2 * shape))) / 2`; at `timing = 0` the curve attains its maximum 1
(spec section 4.1 edge case). -/
noncomputable def logNormalScoreValue (timing podr median : ℝ) : ℝ :=
  if timing = 0 then 1
  else
    (1 - erf ((Real.log timing - Real.log median) /
      (Real.sqrt 2 * lognormalShape podr median))) / 2

/-- Modelled from the spec: `Audit.computeLogNormalScore` as specified at its
boundary — negative `timing` fails with `InvalidInput` and returns no value;
otherwise the log-normal curve value is returned. -/
noncomputable def computeLogNormalScore (timing podr median : ℝ) :
    Except AuditError ℝ :=
  if timing < 0 then .error .invalidInput
  else .ok (logNormalScoreValue timing podr median)

namespace LargestContentfulPaint

/-- `static get meta()`: the declarative metadata record.  The title and
description are produced through the external message formatter `str`,
applied to the message keys used in the source. -/
def meta (str : String → String) : AuditMeta :=
  { id := "largest-contentful-paint"
    title := str "largestContentfulPaintMetric"
    description := str "description"
    scoreDisplayMode := ScoringMode.numeric
    requiredArtifacts := ["traces", "devtoolsLogs"] }

/-- `static get defaultOptions()`: `{scorePODR: 2000, scoreMedian: 4000}`. -/
def defaultOptions : ScoreOptions :=
  { scorePODR := 2000
    scoreMedian := 4000 }

/-- `static async audit(artifacts, context)`.  The external metric engine
(`ComputedLCP.request`) and the seconds formatter
(`str_(i18n.UIStrings.seconds, {timeInMs})`) are parameters; a rejected
request propagates unchanged, and the product is built from the
metric result's timing, the scoring curve, and the formatted timing. -/
noncomputable def audit {T D S : Type}
    (engine : MetricComputationData T D S → AuditContext S → Except AuditError MetricResult)
    (fmtSeconds : ℝ → String)
    (artifacts : Artifacts T D) (context : AuditContext S) :
    Except AuditError AuditProduct :=
  let trace := artifacts.traces DEFAULT_PASS
  let devtoolsLog := artifacts.devtoolsLogs DEFAULT_PASS
  let metricComputationData : MetricComputationData T D S :=
    { trace := trace, devtoolsLog := devtoolsLog, settings := context.settings }
  match engine metricComputationData context with
  | .error e => .error e
  | .ok metricResult =>
    match computeLogNormalScore metricResult.timing
        context.options.scorePODR context.options.scoreMedian with
    | .error e => .error e
    | .ok score =>
      .ok { score := score
            numericValue := metricResult.timing
            displayValue := fmtSeconds metricResult.timing }

end LargestContentfulPaint

/-- Calibration overrides as accepted on the configuration surface:
`{scorePODR?: number, scoreMedian?: number}` with both fields optional. -/
structure ScoreOptionOverrides where
  scorePODR : Option ℝ
  scoreMedian : Option ℝ

/-- Modelled from the spec: the orchestrator's option resolution (the merge
lives outside this file) — an explicit override wins, an unspecified field
falls back to the audit's declared default. -/
def resolveOptions (overrides : ScoreOptionOverrides) (defaults : ScoreOptions) :
    ScoreOptions :=
  { scorePODR := overrides.scorePODR.getD defaults.scorePODR
    scoreMedian := overrides.scoreMedian.getD defaults.scoreMedian }

/-- The audit operation as invoked by the orchestrator: the context's options
are the overrides resolved against the audit's `defaultOptions`. -/
noncomputable def runWithOverrides {T D S : Type}
    (engine : MetricComputationData T D S → AuditContext S → Except AuditError MetricResult)
    (fmtSeconds : ℝ → String)
    (artifacts : Artifacts T D) (settings : S)
    (overrides : ScoreOptionOverrides) : Except AuditError AuditProduct :=
  LargestContentfulPaint.audit engine fmtSeconds artifacts
    { settings := settings
      options := resolveOptions overrides LargestContentfulPaint.defaultOptions }

/-- Instrumented state-passing transcription of `audit`: the list of metric
requests issued, the artifacts and the context as they stand after the
operation (the method body contains no write to either, so the transcription
passes them through), and the result. -/
structure AuditEffects (T D S : Type) where
  requests : List (MetricComputationData T D S)
  finalArtifacts : Artifacts T D
  finalContext : AuditContext S
  result : Except AuditError AuditProduct

/-- The audit with its effects made explicit: each external request is
recorded, and the (never-written) inputs are threaded through to the end. -/
noncomputable def auditInstrumented {T D S : Type}
    (engine : MetricComputationData T D S → AuditContext S → Except AuditError MetricResult)
    (fmtSeconds : ℝ → String)
    (artifacts : Artifacts T D) (context : AuditContext S) :
    AuditEffects T D S :=
  let trace := artifacts.traces DEFAULT_PASS
  let devtoolsLog := artifacts.devtoolsLogs DEFAULT_PASS
  let metricComputationData : MetricComputationData T D S :=
    { trace := trace, devtoolsLog := devtoolsLog, settings := context.settings }
  let requestOutcome := engine metricComputationData context
  { requests := [metricComputationData]
    finalArtifacts := artifacts
    finalContext := context
    result :=
      match requestOutcome with
      | .error e => .error e
      | .ok metricResult =>
        match computeLogNormalScore metricResult.timing
            context.options.scorePODR context.options.scoreMedian with
        | .error e => .error e
        | .ok score =>
          .ok { score := score
                numericValue := metricResult.timing
                displayValue := fmtSeconds metricResult.timing } }

/-! Analysis lemmas about the modelled scoring curve. -/

lemma gaussCont : Continuous fun t : ℝ => Real.exp (-t ^ 2) :=
  Real.continuous_exp.comp (continuous_pow 2).neg

lemma gaussIntervalIntegrable (a b : ℝ) :
    IntervalIntegrable (fun t : ℝ => Real.exp (-t ^ 2)) volume a b :=
  gaussCont.intervalIntegrable a b

lemma gaussIntegrable : Integrable fun t : ℝ => Real.exp (-t ^ 2) := by
  have h := integrable_exp_neg_mul_sq (b := 1) one_pos
  simpa using h

lemma erf_zero : erf 0 = 0 := by
  simp [erf]

lemma erf_mono {a b : ℝ} (h : a ≤ b) : erf a ≤ erf b := by
  have hadd := integral_add_adjacent_intervals (μ := volume)
    (gaussIntervalIntegrable 0 a) (gaussIntervalIntegrable a b)
  have hseg : 0 ≤ ∫ t in a..b, Real.exp (-t ^ 2) :=
    intervalIntegral.integral_nonneg h (fun u _ => (Real.exp_pos _).le)
  have hle : (∫ t in (0:ℝ)..a, Real.exp (-t ^ 2))
      ≤ ∫ t in (0:ℝ)..b, Real.exp (-t ^ 2) := by
    rw [← hadd]; linarith
  have hc : 0 ≤ 2 / Real.sqrt π := by positivity
  exact mul_le_mul_of_nonneg_left hle hc

lemma gauss_integral_le (x : ℝ) :
    (∫ t in (0:ℝ)..x, Real.exp (-t ^ 2)) ≤ Real.sqrt π / 2 := by
  rcases le_or_lt x 0 with hx | hx
  · have hneg : (∫ t in (0:ℝ)..x, Real.exp (-t ^ 2)) ≤ 0 := by
      rw [intervalIntegral.integral_symm]
      have : 0 ≤ ∫ t in x..(0:ℝ), Real.exp (-t ^ 2) :=
        intervalIntegral.integral_nonneg hx (fun u _ => (Real.exp_pos _).le)
      linarith
    have : (0:ℝ) ≤ Real.sqrt π / 2 := by positivity
    linarith
  · have heq : (∫ t in (0:ℝ)..x, Real.exp (-t ^ 2))
        = ∫ t in Ioc (0:ℝ) x, Real.exp (-t ^ 2) :=
      intervalIntegral.integral_of_le hx.le
    have hIoi : (∫ t in Ioc (0:ℝ) x, Real.exp (-t ^ 2))
        ≤ ∫ t in Ioi (0:ℝ), Real.exp (-t ^ 2) := by
      apply setIntegral_mono_set gaussIntegrable.integrableOn
      · filter_upwards with t using (Real.exp_pos _).le
      · exact HasSubset.Subset.eventuallyLE Ioc_subset_Ioi_self
    have hval : (∫ t in Ioi (0:ℝ), Real.exp (-t ^ 2)) = Real.sqrt π / 2 := by
      have h := integral_gaussian_Ioi 1
      simpa using h
    rw [heq]
    rw [hval] at hIoi
    exact hIoi

lemma erf_le_one (x : ℝ) : erf x ≤ 1 := by
  have h := gauss_integral_le x
  have hc : 0 ≤ 2 / Real.sqrt π := by positivity
  have hmul := mul_le_mul_of_nonneg_left h hc
  calc erf x ≤ 2 / Real.sqrt π * (Real.sqrt π / 2) := hmul
    _ = 1 := by
        field_simp

lemma erf_neg_arg (x : ℝ) : erf (-x) = -erf x := by
  have hfun : (∫ t in (0:ℝ)..(-x), Real.exp (-t ^ 2))
      = ∫ t in (0:ℝ)..(-x), Real.exp (-(-t) ^ 2) := by
    congr 1
    funext t
    ring_nf
  have hcomp := intervalIntegral.integral_comp_neg (a := (0:ℝ)) (b := -x)
    (f := fun t : ℝ => Real.exp (-t ^ 2))
  have hflip : (∫ t in (0:ℝ)..(-x), Real.exp (-t ^ 2))
      = ∫ t in x..(0:ℝ), Real.exp (-t ^ 2) := by
    rw [hfun, hcomp]
    norm_num
  rw [erf, hflip, intervalIntegral.integral_symm]
  simp [erf]

lemma neg_one_le_erf (x : ℝ) : -1 ≤ erf x := by
  have h := erf_le_one (-x)
  rw [erf_neg_arg] at h
  linarith

lemma lognormalShape_pos {podr median : ℝ} (hp : 0 < podr) (hpm : podr < median) :
    0 < lognormalShape podr median := by
  set r := Real.log (podr / median) with hr
  have hm : 0 < median := hp.trans hpm
  have hratio : podr / median < 1 := (div_lt_one hm).2 hpm
  have hrneg : r < 0 := Real.log_neg (div_pos hp hm) hratio
  have hinner : (0:ℝ) ≤ (r - 3) * (r - 3) - 8 := by nlinarith
  have hub : Real.sqrt ((r - 3) * (r - 3) - 8) < 1 - 3 * r := by
    have h1 : (r - 3) * (r - 3) - 8 < (1 - 3 * r) ^ 2 := by nlinarith
    have h2 : Real.sqrt ((r - 3) * (r - 3) - 8) < Real.sqrt ((1 - 3 * r) ^ 2) :=
      Real.sqrt_lt_sqrt hinner h1
    rwa [Real.sqrt_sq (by nlinarith)] at h2
  have harg : 0 < 1 - 3 * r - Real.sqrt ((r - 3) * (r - 3) - 8) := by linarith
  have hs := Real.sqrt_pos.2 harg
  unfold lognormalShape
  rw [← hr]
  positivity

lemma logNormalScoreValue_zero (podr median : ℝ) :
    logNormalScoreValue 0 podr median = 1 := by
  simp [logNormalScoreValue]

lemma logNormalScoreValue_mem_Icc (timing podr median : ℝ) :
    logNormalScoreValue timing podr median ∈ Icc (0:ℝ) 1 := by
  unfold logNormalScoreValue
  split
  · exact ⟨zero_le_one, le_refl 1⟩
  · constructor
    · have := erf_le_one ((Real.log timing - Real.log median) /
        (Real.sqrt 2 * lognormalShape podr median))
      linarith
    · have := neg_one_le_erf ((Real.log timing - Real.log median) /
        (Real.sqrt 2 * lognormalShape podr median))
      linarith

lemma logNormalScoreValue_median {podr median : ℝ} (hp : 0 < podr)
    (hpm : podr < median) :
    logNormalScoreValue median podr median = 1 / 2 := by
  have hm : 0 < median := hp.trans hpm
  rw [logNormalScoreValue, if_neg hm.ne']
  simp [erf_zero]

lemma logNormalScoreValue_antitone {podr median : ℝ} (hp : 0 < podr)
    (hpm : podr < median) {t1 t2 : ℝ} (h1 : 0 ≤ t1) (h12 : t1 ≤ t2) :
    logNormalScoreValue t2 podr median ≤ logNormalScoreValue t1 podr median := by
  rcases eq_or_lt_of_le h1 with h0 | h1pos
  · rw [← h0, logNormalScoreValue_zero]
    exact (logNormalScoreValue_mem_Icc t2 podr median).2
  · have h2pos : 0 < t2 := lt_of_lt_of_le h1pos h12
    rw [logNormalScoreValue, if_neg h2pos.ne', logNormalScoreValue, if_neg h1pos.ne']
    have hc : 0 < Real.sqrt 2 * lognormalShape podr median :=
      mul_pos (Real.sqrt_pos.2 two_pos) (lognormalShape_pos hp hpm)
    have hlog : Real.log t1 ≤ Real.log t2 := Real.log_le_log h1pos h12
    have hdiv : (Real.log t1 - Real.log median) / (Real.sqrt 2 * lognormalShape podr median)
        ≤ (Real.log t2 - Real.log median) / (Real.sqrt 2 * lognormalShape podr median) :=
      (div_le_div_iff_of_pos_right hc).2 (by linarith)
    have herf := erf_mono hdiv
    linarith

/-! Unfolding lemmas for the audit operation. -/

lemma audit_eq_error {T D S : Type}
    (engine : MetricComputationData T D S → AuditContext S → Except AuditError MetricResult)
    (fmtSeconds : ℝ → String) (artifacts : Artifacts T D) (context : AuditContext S)
    (e : AuditError)
    (hreq : engine
      { trace := artifacts.traces DEFAULT_PASS
        devtoolsLog := artifacts.devtoolsLogs DEFAULT_PASS
        settings := context.settings } context = .error e) :
    LargestContentfulPaint.audit engine fmtSeconds artifacts context = .error e := by
  simp only [LargestContentfulPaint.audit]
  rw [hreq]

lemma audit_eq_ok {T D S : Type}
    (engine : MetricComputationData T D S → AuditContext S → Except AuditError MetricResult)
    (fmtSeconds : ℝ → String) (artifacts : Artifacts T D) (context : AuditContext S)
    (t : ℝ)
    (hreq : engine
      { trace := artifacts.traces DEFAULT_PASS
        devtoolsLog := artifacts.devtoolsLogs DEFAULT_PASS
        settings := context.settings } context = .ok { timing := t })
    (ht : 0 ≤ t) :
    LargestContentfulPaint.audit engine fmtSeconds artifacts context =
      .ok { score := logNormalScoreValue t context.options.scorePODR context.options.scoreMedian
            numericValue := t
            displayValue := fmtSeconds t } := by
  simp only [LargestContentfulPaint.audit]
  rw [hreq]
  simp only [computeLogNormalScore, if_neg (not_lt.2 ht)]

lemma audit_map_score {T D S : Type}
    (engine : MetricComputationData T D S → AuditContext S → Except AuditError MetricResult)
    (fmtSeconds : ℝ → String) (artifacts : Artifacts T D) (context : AuditContext S)
    (t : ℝ)
    (hreq : engine
      { trace := artifacts.traces DEFAULT_PASS
        devtoolsLog := artifacts.devtoolsLogs DEFAULT_PASS
        settings := context.settings } context = .ok { timing := t }) :
    (LargestContentfulPaint.audit engine fmtSeconds artifacts context).map AuditProduct.score
      = computeLogNormalScore t context.options.scorePODR context.options.scoreMedian := by
  simp only [LargestContentfulPaint.audit]
  rw [hreq]
  cases hcurve : computeLogNormalScore t context.options.scorePODR context.options.scoreMedian with
  | error e => simp [hcurve, Except.map]
  | ok s => simp [hcurve, Except.map]

/-! Claim theorems. -/

/-- C1: when the metric request succeeds, the calibration used to compute the
score is the context's `scorePODR` / `scoreMedian` when present, and otherwise
the descriptor defaults 2000 / 4000; an omitted field is replaced by its
default, never used absent. -/
theorem run_resolves_calibration {T D S : Type}
    (engine : MetricComputationData T D S → AuditContext S → Except AuditError MetricResult)
    (fmtSeconds : ℝ → String) (artifacts : Artifacts T D) (settings : S)
    (overrides : ScoreOptionOverrides) (t : ℝ)
    (hreq : engine
      { trace := artifacts.traces DEFAULT_PASS
        devtoolsLog := artifacts.devtoolsLogs DEFAULT_PASS
        settings := settings }
      { settings := settings
        options := resolveOptions overrides LargestContentfulPaint.defaultOptions }
      = .ok { timing := t })
    (ht : 0 ≤ t) :
    runWithOverrides engine fmtSeconds artifacts settings overrides =
      .ok { score := logNormalScoreValue t (overrides.scorePODR.getD 2000)
              (overrides.scoreMedian.getD 4000)
            numericValue := t
            displayValue := fmtSeconds t } :=
  audit_eq_ok engine fmtSeconds artifacts
    { settings := settings
      options := resolveOptions overrides LargestContentfulPaint.defaultOptions }
    t hreq ht

/-- Witness for C1: with both overrides omitted and a successful request of
timing 0, the defaults 2000 / 4000 are used. -/
theorem run_resolves_calibration_witness :
    runWithOverrides (T := Unit) (D := Unit) (S := Unit)
      (fun _ _ => .ok { timing := 0 }) (fun _ => "0 s")
      { traces := fun _ => (), devtoolsLogs := fun _ => () } ()
      { scorePODR := none, scoreMedian := none } =
      .ok { score := logNormalScoreValue 0 2000 4000
            numericValue := 0
            displayValue := "0 s" } :=
  run_resolves_calibration (fun _ _ => .ok { timing := 0 }) (fun _ => "0 s")
    { traces := fun _ => (), devtoolsLogs := fun _ => () } ()
    { scorePODR := none, scoreMedian := none } 0 rfl le_rfl

/-- C2: a failed metric request makes the whole audit operation fail with the
same error; no partial product is returned. -/
theorem audit_propagates_engine_failure {T D S : Type}
    (engine : MetricComputationData T D S → AuditContext S → Except AuditError MetricResult)
    (fmtSeconds : ℝ → String) (artifacts : Artifacts T D) (context : AuditContext S)
    (e : AuditError)
    (hreq : engine
      { trace := artifacts.traces DEFAULT_PASS
        devtoolsLog := artifacts.devtoolsLogs DEFAULT_PASS
        settings := context.settings } context = .error e) :
    LargestContentfulPaint.audit engine fmtSeconds artifacts context = .error e ∧
    ∀ p : AuditProduct,
      LargestContentfulPaint.audit engine fmtSeconds artifacts context ≠ .ok p := by
  have h := audit_eq_error engine fmtSeconds artifacts context e hreq
  exact ⟨h, fun p hp => by rw [h] at hp; exact Except.noConfusion hp⟩

/-- Witness for C2: a concrete engine failure propagates unchanged. -/
theorem audit_propagates_engine_failure_witness :
    LargestContentfulPaint.audit (T := Unit) (D := Unit) (S := Unit)
      (fun _ _ => .error (.computationError "no LCP event"))
      (fun _ => "") { traces := fun _ => (), devtoolsLogs := fun _ => () }
      { settings := (), options := { scorePODR := 2000, scoreMedian := 4000 } }
      = .error (.computationError "no LCP event") :=
  (audit_propagates_engine_failure
    (fun _ _ => .error (.computationError "no LCP event"))
    (fun _ => "") { traces := fun _ => (), devtoolsLogs := fun _ => () }
    { settings := (), options := { scorePODR := 2000, scoreMedian := 4000 } }
    (.computationError "no LCP event") rfl).1

/-- C3: on a successful metric request with timing `t`, the product is exactly
`{score, numericValue, displayValue}` with `numericValue = t` unchanged, the
score the log-normal curve at `t` with the resolved calibration, and the
display value the timing formatted through the message collaborator. -/
theorem audit_success_product {T D S : Type}
    (engine : MetricComputationData T D S → AuditContext S → Except AuditError MetricResult)
    (fmtSeconds : ℝ → String) (artifacts : Artifacts T D) (context : AuditContext S)
    (t : ℝ)
    (hreq : engine
      { trace := artifacts.traces DEFAULT_PASS
        devtoolsLog := artifacts.devtoolsLogs DEFAULT_PASS
        settings := context.settings } context = .ok { timing := t })
    (ht : 0 ≤ t) :
    LargestContentfulPaint.audit engine fmtSeconds artifacts context =
      .ok { score := logNormalScoreValue t context.options.scorePODR context.options.scoreMedian
            numericValue := t
            displayValue := fmtSeconds t } :=
  audit_eq_ok engine fmtSeconds artifacts context t hreq ht

/-- Witness for C3: a concrete successful request of timing 0 yields the full
product. -/
theorem audit_success_product_witness :
    LargestContentfulPaint.audit (T := Unit) (D := Unit) (S := Unit)
      (fun _ _ => .ok { timing := 0 }) (fun _ => "0 s")
      { traces := fun _ => (), devtoolsLogs := fun _ => () }
      { settings := (), options := { scorePODR := 2000, scoreMedian := 4000 } }
      = .ok { score := logNormalScoreValue 0 2000 4000
              numericValue := 0
              displayValue := "0 s" } :=
  audit_success_product (fun _ _ => .ok { timing := 0 }) (fun _ => "0 s")
    { traces := fun _ => (), devtoolsLogs := fun _ => () }
    { settings := (), options := { scorePODR := 2000, scoreMedian := 4000 } }
    0 rfl le_rfl

/-- C4: the declared defaults are exactly `scorePODR = 2000` and
`scoreMedian = 4000`, and they satisfy `scorePODR < scoreMedian`. -/
theorem defaultOptions_calibration :
    LargestContentfulPaint.defaultOptions.scorePODR = 2000 ∧
    LargestContentfulPaint.defaultOptions.scoreMedian = 4000 ∧
    LargestContentfulPaint.defaultOptions.scorePODR <
      LargestContentfulPaint.defaultOptions.scoreMedian :=
  ⟨rfl, rfl, by norm_num [LargestContentfulPaint.defaultOptions]⟩

/-- C5: the metadata declares exactly the required artifacts `traces` and
`devtoolsLogs`, the numeric display mode, and the stable identifier, for any
message formatter — it is a pure record needing no audit logic. -/
theorem meta_static_contract (str : String → String) :
    (LargestContentfulPaint.meta str).requiredArtifacts = ["traces", "devtoolsLogs"] ∧
    (LargestContentfulPaint.meta str).scoreDisplayMode = ScoringMode.numeric ∧
    (LargestContentfulPaint.meta str).id = "largest-contentful-paint" :=
  ⟨rfl, rfl, rfl⟩

/-- C6: for a fixed valid calibration the scoring curve is monotonically
non-increasing in the timing, and every score lies in [0, 1]. -/
theorem score_monotone_and_bounded (podr median : ℝ) (hp : 0 < podr)
    (hpm : podr < median) :
    (∀ t1 t2 : ℝ, 0 ≤ t1 → t1 < t2 →
      logNormalScoreValue t2 podr median ≤ logNormalScoreValue t1 podr median) ∧
    (∀ t : ℝ, 0 ≤ t → logNormalScoreValue t podr median ∈ Icc (0:ℝ) 1) :=
  ⟨fun _ _ h1 h12 => logNormalScoreValue_antitone hp hpm h1 h12.le,
   fun t _ => logNormalScoreValue_mem_Icc t podr median⟩

/-- Witness for C6: with the default calibration, the score at 3000 is at most
the score at 1000, and the score at 3000 lies in [0, 1]. -/
theorem score_monotone_and_bounded_witness :
    logNormalScoreValue 3000 2000 4000 ≤ logNormalScoreValue 1000 2000 4000 ∧
    logNormalScoreValue 3000 2000 4000 ∈ Icc (0:ℝ) 1 :=
  ⟨(score_monotone_and_bounded 2000 4000 (by norm_num) (by norm_num)).1
      1000 3000 (by norm_num) (by norm_num),
   (score_monotone_and_bounded 2000 4000 (by norm_num) (by norm_num)).2
      3000 (by norm_num)⟩

/-- C7: for any valid calibration, the curve at the median timing is exactly
one half, and at timing 0 it attains the maximum score 1. -/
theorem score_median_and_zero (podr median : ℝ) (hp : 0 < podr)
    (hpm : podr < median) :
    logNormalScoreValue median podr median = 1 / 2 ∧
    logNormalScoreValue 0 podr median = 1 :=
  ⟨logNormalScoreValue_median hp hpm, logNormalScoreValue_zero podr median⟩

/-- Witness for C7: with the default calibration, the score at 4000 is one
half and the score at 0 is 1. -/
theorem score_median_and_zero_witness :
    logNormalScoreValue 4000 2000 4000 = 1 / 2 ∧
    logNormalScoreValue 0 2000 4000 = 1 :=
  score_median_and_zero 2000 4000 (by norm_num) (by norm_num)

/-- C8: every negative timing makes the scoring curve fail with the
`InvalidInput` error kind; no score value is returned and nothing is clamped
into [0, 1]. -/
theorem negative_timing_invalid_input (timing podr median : ℝ)
    (h : timing < 0) :
    computeLogNormalScore timing podr median = .error .invalidInput ∧
    ∀ s : ℝ, computeLogNormalScore timing podr median ≠ .ok s := by
  have he : computeLogNormalScore timing podr median = .error .invalidInput := by
    rw [computeLogNormalScore, if_pos h]
  exact ⟨he, fun s hs => by rw [he] at hs; exact Except.noConfusion hs⟩

/-- Witness for C8: the curve at timing -1 with the default calibration fails
with `InvalidInput`. -/
theorem negative_timing_invalid_input_witness :
    computeLogNormalScore (-1) 2000 4000 = .error .invalidInput :=
  (negative_timing_invalid_input (-1) 2000 4000 (by norm_num)).1

/-- C9: the scoring computation is deterministic — two audit invocations
whose metric requests succeed with the same timing and whose contexts carry
the same calibration options produce identical scores, whatever the engines,
formatters, artifacts or settings involved. -/
theorem score_deterministic {T1 D1 S1 T2 D2 S2 : Type}
    (engine1 : MetricComputationData T1 D1 S1 → AuditContext S1 → Except AuditError MetricResult)
    (engine2 : MetricComputationData T2 D2 S2 → AuditContext S2 → Except AuditError MetricResult)
    (fmt1 fmt2 : ℝ → String) (a1 : Artifacts T1 D1) (a2 : Artifacts T2 D2)
    (c1 : AuditContext S1) (c2 : AuditContext S2) (t : ℝ)
    (h1 : engine1
      { trace := a1.traces DEFAULT_PASS
        devtoolsLog := a1.devtoolsLogs DEFAULT_PASS
        settings := c1.settings } c1 = .ok { timing := t })
    (h2 : engine2
      { trace := a2.traces DEFAULT_PASS
        devtoolsLog := a2.devtoolsLogs DEFAULT_PASS
        settings := c2.settings } c2 = .ok { timing := t })
    (hopt : c1.options = c2.options) :
    (LargestContentfulPaint.audit engine1 fmt1 a1 c1).map AuditProduct.score =
      (LargestContentfulPaint.audit engine2 fmt2 a2 c2).map AuditProduct.score := by
  rw [audit_map_score engine1 fmt1 a1 c1 t h1,
    audit_map_score engine2 fmt2 a2 c2 t h2, hopt]

/-- Witness for C9: two distinct invocations agreeing on timing and options
yield the same score. -/
theorem score_deterministic_witness :
    (LargestContentfulPaint.audit (T := Unit) (D := Unit) (S := Unit)
      (fun _ _ => .ok { timing := 0 }) (fun _ => "a")
      { traces := fun _ => (), devtoolsLogs := fun _ => () }
      { settings := (), options := { scorePODR := 2000, scoreMedian := 4000 } }).map
        AuditProduct.score =
    (LargestContentfulPaint.audit (T := Unit) (D := Unit) (S := Unit)
      (fun _ _ => .ok { timing := 0 }) (fun _ => "b")
      { traces := fun _ => (), devtoolsLogs := fun _ => () }
      { settings := (), options := { scorePODR := 2000, scoreMedian := 4000 } }).map
        AuditProduct.score :=
  score_deterministic (fun _ _ => .ok { timing := 0 }) (fun _ _ => .ok { timing := 0 })
    (fun _ => "a") (fun _ => "b")
    { traces := fun _ => (), devtoolsLogs := fun _ => () }
    { traces := fun _ => (), devtoolsLogs := fun _ => () }
    { settings := (), options := { scorePODR := 2000, scoreMedian := 4000 } }
    { settings := (), options := { scorePODR := 2000, scoreMedian := 4000 } }
    0 rfl rfl rfl

/-- C10: the audit only reads its inputs — the state-passing transcription
issues exactly one metric request, built from the default-pass trace and
devtools-log entries and the context's settings, and returns the artifacts
and the context unchanged. -/
theorem audit_effects_frame {T D S : Type}
    (engine : MetricComputationData T D S → AuditContext S → Except AuditError MetricResult)
    (fmtSeconds : ℝ → String) (artifacts : Artifacts T D) (context : AuditContext S) :
    auditInstrumented engine fmtSeconds artifacts context =
      { requests := [{ trace := artifacts.traces DEFAULT_PASS
                       devtoolsLog := artifacts.devtoolsLogs DEFAULT_PASS
                       settings := context.settings }]
        finalArtifacts := artifacts
        finalContext := context
        result := LargestContentfulPaint.audit engine fmtSeconds artifacts context } :=
  rfl
